import Mathlib

/-!
Shallow embedding of `src/client.cpp` (class `mlt::Client`, an SMTP milter
session-state object) and proofs about its lifecycle operations.

Modelling conventions:
* `FILE *fcontent` is `Option Nat` (`none` = `nullptr`; `some h` = an open
  stdio handle identified by `h`).
* Heap pointers stored in the `sessionData` map (`char*` values) and the
  `markedHeaders` list (`char*` name/value pairs) are `Option Nat`
  (`none` = `nullptr`; `some a` = the allocation with identity `a`).
* Filesystem and resolver outcomes (`fs::exists`, `fs::is_directory`,
  `fopen`, `getnameinfo`, exceptions thrown inside `try` blocks) are
  supplied by explicit environment records, one per call.
* Observable side effects — `fclose` calls (including `fclose(NULL)`, which
  is undefined behaviour), `fs::remove`, `free`, and diagnostics written to
  `std::cerr` — are collected as an `Event` trace.

`client.h` is not part of the sources; the class layout is reconstructed
from its uses in `client.cpp` (fields `fcontent`, `hostname`, `ipAndPort`,
`id`, `mailflags`, `optionalPreamble`, `genericError`, `fcontentStatus`,
`sessionData`, `markedHeaders`, `temp`, and the getter `getFcontentStatus`
returning `fcontentStatus`).
-/

set_option autoImplicit false
set_option linter.unusedVariables false

namespace Mlt

/-- Enumeration `mlt::mailflags` is declared in `client.h`; `client.cpp`
references only `TYPE_NONE`. A second constructor stands for any of the
remaining enumerators so that non-default values exist in the model. -/
inductive Mailflags where
  | TYPE_NONE
  | TYPE_OTHER
deriving DecidableEq, Repr

/-- Address family tag of a `struct sockaddr` (`sa_family`). -/
inductive SaFamily where
  | AF_INET
  | AF_INET6
  | AF_OTHER (n : Nat)
deriving DecidableEq, Repr

/-- Model of a non-null `struct sockaddr`: only the family tag matters to
`Client::prepareIPandPort`; the numeric host/port bytes are consumed by the
`getnameinfo` oracle. -/
structure SockAddr where
  sa_family : SaFamily
deriving DecidableEq, Repr

/-- Oracle for one `getnameinfo` call: its return code (`0` = success) and
the numeric host and service strings it writes into `clienthost` /
`clientport` on success. -/
structure NameInfoEnv where
  result : Nat
  clienthost : String
  clientport : String
deriving DecidableEq, Repr

/-- Observable side effects of the session-state operations. -/
inductive Event where
  /-- a call `fclose(fcontent)`; argument `none` means `fclose(NULL)`,
  which is undefined behaviour in C -/
  | fcloseCall (h : Option Nat)
  /-- a successful `fs::remove(temp)` -/
  | removeFile (p : String)
  /-- one diagnostic line written to `std::cerr` -/
  | diag (m : String)
  /-- a call `free(p)` on the allocation with identity `a` (the code never
  reaches `free` with a null pointer: every `free` is guarded) -/
  | free (a : Nat)
deriving DecidableEq, Repr

/-- State of one `mlt::Client` object (fields as declared in `client.h`
and used by `client.cpp`). `sessionData` is the `std::map` of annotation
key/value pairs; `markedHeaders` is the list of header name/value pairs;
`temp` is the `fs::path` of the spool file (`""` when default-constructed). -/
structure Client where
  fcontent : Option Nat
  hostname : String
  ipAndPort : String
  id : Nat
  mailflags : Mailflags
  optionalPreamble : Bool
  genericError : Bool
  fcontentStatus : Bool
  sessionData : List (String × Option Nat)
  markedHeaders : List (Option Nat × Option Nat)
  temp : String
deriving DecidableEq, Repr

/-- Embedding of `Client::prepareIPandPort` (client.cpp lines 131-175),
for a non-null `hostaddr`. The first `switch` only selects `hostaddrlen`
for the two supported families (absorbed into the `getnameinfo` oracle)
and in the `default` case reports `gai_strerror(EAI_FAMILY)` and returns
`"unknown"`. Then `getnameinfo` is called with
`NI_NUMERICHOST | NI_NUMERICSERV`; a nonzero result is reported and yields
`"unknown"`; on success the second `switch` formats IPv4 as `host:port`
and IPv6 as `[host]:port` (its `default` arm is unreachable). -/
def prepareIPandPort (env : NameInfoEnv) (hostaddr : SockAddr) : String × List Event :=
  match hostaddr.sa_family with
  | SaFamily.AF_OTHER _ => ("unknown", [Event.diag "Error: ai_family not supported"])
  | fam =>
    if env.result ≠ 0 then
      ("unknown", [Event.diag "Error: getnameinfo failed"])
    else
      match fam with
      | SaFamily.AF_INET => (env.clienthost ++ ":" ++ env.clientport, [])
      | SaFamily.AF_INET6 => ("[" ++ env.clienthost ++ "]:" ++ env.clientport, [])
      | SaFamily.AF_OTHER _ => ("unknown", [])

/-- Embedding of `Client::prepareIPandPort` including its entry
`assert(hostaddr != nullptr)` (client.cpp line 132): the raw pointer
argument is an `Option SockAddr`, and a null argument is an assertion
failure (`none` result) rather than any returned string. -/
def prepareIPandPortChecked (env : NameInfoEnv) (hostaddr : Option SockAddr) :
    Option (String × List Event) :=
  match hostaddr with
  | none => none
  | some a => some (prepareIPandPort env a)

/-- State of a `Client` right after the constructor's initializer list ran
(client.cpp lines 28-43), given the already-derived `ipAndPort` string and
the already-assigned unique `id`. `temp` is a default-constructed path and
the two containers are default-constructed (empty). -/
def freshClient (hostname : String) (ipAndPort : String) (id : Nat) : Client :=
  { fcontent := none
    hostname := hostname
    ipAndPort := ipAndPort
    id := id
    mailflags := Mailflags.TYPE_NONE
    optionalPreamble := true
    genericError := false
    fcontentStatus := false
    sessionData := []
    markedHeaders := []
    temp := "" }

/-- Embedding of the constructor `Client::Client` (client.cpp lines 28-43):
derives `ipAndPort` via `prepareIPandPort` (emitting that call's
diagnostics) and initializes every other field; the unique-id assignment
is modelled separately (see `raceStep`), the chosen value is passed in. -/
def Client.construct (hostname : String) (hostaddr : SockAddr) (env : NameInfoEnv)
    (id : Nat) : Client × List Event :=
  ((freshClient hostname (prepareIPandPort env hostaddr).1 id),
   (prepareIPandPort env hostaddr).2)

/-- Filesystem oracle for one `Client::cleanup` call: whether
`fs::exists(temp)` and `fs::is_regular(temp)` hold, and whether the
removal `try` block throws (the exception is caught and reported inside
`cleanup` itself, client.cpp lines 184-190). -/
structure CleanupEnv where
  tempExists : Bool
  tempIsRegular : Bool
  removeThrows : Bool
deriving DecidableEq, Repr

/-- State part of `Client::cleanup` (client.cpp lines 177-181): if
`getFcontentStatus() || fcontent != nullptr` then `fclose(fcontent)` and
`fcontent = nullptr`. Note that `fcontentStatus` itself is NOT reset. -/
def cleanupState (c : Client) : Client :=
  if c.fcontentStatus || c.fcontent.isSome then { c with fcontent := none } else c

/-- Event part of the close branch of `Client::cleanup`: the `fclose` call
(whose argument may be `none`, i.e. `fclose(NULL)`). -/
def cleanupCloseEvents (c : Client) : List Event :=
  if c.fcontentStatus || c.fcontent.isSome then [Event.fcloseCall c.fcontent] else []

/-- Event part of the removal branch of `Client::cleanup` (client.cpp
lines 182-191): skipped entirely when the build defines `_KEEP_TEMPFILES`
(retention mode); otherwise `fs::remove(temp)` runs when `temp` exists and
is a regular file, and an exception from that `try` block is caught and
reported. -/
def cleanupRemoveEvents (keepTempfiles : Bool) (env : CleanupEnv) (c : Client) : List Event :=
  if keepTempfiles then []
  else if env.tempExists && env.tempIsRegular then
    (if env.removeThrows then [Event.diag "Error: temp file removal failed"]
     else [Event.removeFile c.temp])
  else []

/-- Embedding of `Client::cleanup` (client.cpp lines 177-192). It is total:
`fclose` cannot throw and the filesystem calls sit inside an internal
`try`/`catch`, so no exception escapes. -/
def cleanup (keepTempfiles : Bool) (env : CleanupEnv) (c : Client) : Client × List Event :=
  (cleanupState c,
   cleanupCloseEvents c ++ cleanupRemoveEvents keepTempfiles env (cleanupState c))

/-- Oracles for one `Client::createContentFile` call: the pre-`cleanup`
filesystem oracle, `fs::exists(tmpdir)` / `fs::is_directory(tmpdir)`, the
path produced by `fs::unique_path`, whether the `try` block around `fopen`
throws before the `fopen` assignment (e.g. `std::bad_alloc` from
`temp.string()`), and the `FILE*` returned by `fopen` (`none` = `NULL`,
i.e. the open failed; `fopen` reports failure by its return value and
throws no exception). -/
structure OpenEnv where
  cleanupEnv : CleanupEnv
  tmpdirExists : Bool
  tmpdirIsDir : Bool
  uniquePath : String
  fopenThrows : Bool
  fopenResult : Option Nat
deriving DecidableEq, Repr

/-- Embedding of `Client::createContentFile` (client.cpp lines 69-97).
Steps, in source order:
1. `cleanup()` inside `try`/`catch` — `cleanup` is total in this model
   (see `cleanup`), so the `catch`/`return false` branch is unreachable;
2. `if (!fs::exists(tmpdir) && !fs::is_directory(tmpdir))` report
   "Can not access temporary directory" and `return false` — note the
   `&&`: a path that exists but is not a directory passes this check;
3. `temp = fs::unique_path(tmpdir + "/%%%%-%%%%-%%%%-%%%%.eml")`;
4. inside `try`: `fcontent = fopen(temp, "w+"); fcontentStatus = true;`
   the `catch` sets `fcontent = nullptr` and reports (leaving
   `fcontentStatus` untouched);
5. `return fcontent != nullptr`.
Note `fcontentStatus` is set to `true` even when `fopen` returned `NULL`. -/
def createContentFile (keepTempfiles : Bool) (env : OpenEnv) (tmpdir : String)
    (c : Client) : Client × List Event × Bool :=
  let c1 := (cleanup keepTempfiles env.cleanupEnv c).1
  let ev1 := (cleanup keepTempfiles env.cleanupEnv c).2
  if !env.tmpdirExists && !env.tmpdirIsDir then
    (c1, ev1 ++ [Event.diag "Error: Can not access temporary directory"], false)
  else
    if env.fopenThrows then
      ({ c1 with temp := env.uniquePath, fcontent := none },
       ev1 ++ [Event.diag "Error: exception while opening content file"], false)
    else
      ({ c1 with temp := env.uniquePath, fcontent := env.fopenResult, fcontentStatus := true },
       ev1, env.fopenResult.isSome)

/-- Release of one owned `char*`: `free(p)` guarded by `p != nullptr`, as
in every release site of `client.cpp`. -/
def freeValue : Option Nat → List Event
  | some a => [Event.free a]
  | none => []

/-- Embedding of `Client::reset` (client.cpp lines 99-127): free every
non-null `sessionData` value and clear the map; free every non-null
`markedHeaders` name and value and clear the list; restore `mailflags`,
`optionalPreamble`, `genericError`, `fcontentStatus` to their defaults.
`reset` does NOT call `cleanup` and touches neither `fcontent` nor
`temp`. -/
def reset (c : Client) : Client × List Event :=
  (({ c with
      sessionData := []
      markedHeaders := []
      mailflags := Mailflags.TYPE_NONE
      optionalPreamble := true
      genericError := false
      fcontentStatus := false }),
   (c.sessionData.map (fun e => freeValue e.2)).flatten
     ++ (c.markedHeaders.map (fun p => freeValue p.1 ++ freeValue p.2)).flatten)

/-- Embedding of the destructor `Client::~Client` (client.cpp lines 45-67):
`cleanup()`, then free every non-null `sessionData` value, then free every
non-null `markedHeaders` name and value. The surrounding `try`/`catch` is
unreachable in this model since each step is total. The object ends here,
so only the event trace is returned. -/
def destructor (keepTempfiles : Bool) (env : CleanupEnv) (c : Client) : List Event :=
  (cleanup keepTempfiles env c).2
    ++ ((cleanup keepTempfiles env c).1.sessionData.map (fun e => freeValue e.2)).flatten
    ++ ((cleanup keepTempfiles env c).1.markedHeaders.map
          (fun p => freeValue p.1 ++ freeValue p.2)).flatten

/-- Allocation identities currently owned by the containers of a client:
the non-null `sessionData` values, then the non-null `markedHeaders` names
and values, in container order. -/
def containerAllocs (c : Client) : List Nat :=
  (c.sessionData.map (fun e => e.2.toList)).flatten
    ++ (c.markedHeaders.map (fun p => p.1.toList ++ p.2.toList)).flatten

/-- Allocation identities released by an event trace (the arguments of its
`free` events, in order). -/
def allocsOf (ev : List Event) : List Nat :=
  ev.filterMap (fun e => match e with | Event.free a => some a | _ => none)


/-- One abstract operation on a live session object. Insertions stand for
the milter callbacks (outside this repository) that place heap-allocated
entries into `sessionData` / `markedHeaders`; the lifecycle operations are
the ones implemented in `client.cpp`. -/
inductive Op where
  | insertAnn (k : String) (v : Option Nat)
  | insertHdr (n v : Option Nat)
  | doReset
  | openSpool (tmpdir : String) (env : OpenEnv)
deriving Repr

/-- Effect of one operation on the client state, with its event trace. -/
def stepOp (keepTempfiles : Bool) (c : Client) : Op → Client × List Event
  | Op.insertAnn k v => ({ c with sessionData := c.sessionData ++ [(k, v)] }, [])
  | Op.insertHdr n v => ({ c with markedHeaders := c.markedHeaders ++ [(n, v)] }, [])
  | Op.doReset => reset c
  | Op.openSpool tmpdir env =>
      ((createContentFile keepTempfiles env tmpdir c).1,
       (createContentFile keepTempfiles env tmpdir c).2.1)

/-- Run a sequence of operations, concatenating the event traces. -/
def runOps (keepTempfiles : Bool) (c : Client) : List Op → Client × List Event
  | [] => (c, [])
  | op :: ops =>
      ((runOps keepTempfiles (stepOp keepTempfiles c op).1 ops).1,
       (stepOp keepTempfiles c op).2
         ++ (runOps keepTempfiles (stepOp keepTempfiles c op).1 ops).2)

/-- Non-null allocation identities placed into the containers by a
sequence of operations. -/
def placedAllocs : List Op → List Nat
  | [] => []
  | Op.insertAnn _ v :: ops => v.toList ++ placedAllocs ops
  | Op.insertHdr n v :: ops => n.toList ++ v.toList ++ placedAllocs ops
  | Op.doReset :: ops => placedAllocs ops
  | Op.openSpool _ _ :: ops => placedAllocs ops

/-- All allocation identities freed across an object lifetime: run the
operations from the given initial state, then destroy the object. -/
def lifetimeFrees (keepTempfiles : Bool) (denv : CleanupEnv) (c : Client)
    (ops : List Op) : List Nat :=
  allocsOf (runOps keepTempfiles c ops).2
    ++ allocsOf (destructor keepTempfiles denv (runOps keepTempfiles c ops).1)

/-- Shared state of the unique-identifier generator (`Client::uniqueId`,
client.cpp line 196, initialized to `0UL`) together with the progress of
two concurrently running constructor initializers. Each constructor runs
the id-initializer lambda of client.cpp lines 33-39, split at the lock
boundary into its two shared-memory accesses:
* step 0 — `uniqueIdLock.lock(); ++uniqueId; uniqueIdLock.unlock();`
  (the increment, atomic because the lock is held);
* step 1 — `return uniqueId;` (the read of the counter that produces the
  member `id`; it happens AFTER `unlock()`, outside the critical
  section). -/
structure IdRace where
  uniqueId : Nat
  pc1 : Nat
  id1 : Nat
  pc2 : Nat
  id2 : Nat
deriving DecidableEq, Repr

/-- Both constructors about to run, counter at its initial value `0`. -/
def raceInit : IdRace :=
  { uniqueId := 0, pc1 := 0, id1 := 0, pc2 := 0, id2 := 0 }

/-- One scheduler step: `true` lets thread 1 execute its next access,
`false` lets thread 2. A finished thread (program counter `2`) does
nothing. -/
def raceStep (s : IdRace) (t : Bool) : IdRace :=
  if t then
    match s.pc1 with
    | 0 => { s with uniqueId := s.uniqueId + 1, pc1 := 1 }
    | 1 => { s with id1 := s.uniqueId, pc1 := 2 }
    | _ => s
  else
    match s.pc2 with
    | 0 => { s with uniqueId := s.uniqueId + 1, pc2 := 1 }
    | 1 => { s with id2 := s.uniqueId, pc2 := 2 }
    | _ => s

/-- Run a schedule (an interleaving of the two constructors) from the
initial state. -/
def raceRun (sched : List Bool) : IdRace :=
  sched.foldl raceStep raceInit

/-- Cleanup oracle for a fresh object: its `temp` path is empty, so
`fs::exists(temp)` is false and nothing is removed. -/
def cenvFresh : CleanupEnv :=
  { tempExists := false, tempIsRegular := false, removeThrows := false }

/-- Open-call oracle: the spool directory exists and is a directory, but
`fopen` fails and returns `NULL` (for instance, the directory is not
writable); no exception is thrown anywhere. -/
def envOpenFail : OpenEnv :=
  { cleanupEnv := cenvFresh
    tmpdirExists := true
    tmpdirIsDir := true
    uniquePath := "/tmp/0126-a6b2-91cc-ff01.eml"
    fopenThrows := false
    fopenResult := none }

/-- Open-call oracle: everything succeeds; `fopen` returns the handle `7`. -/
def envOpenOk : OpenEnv :=
  { cleanupEnv := cenvFresh
    tmpdirExists := true
    tmpdirIsDir := true
    uniquePath := "/tmp/0126-a6b2-91cc-ff01.eml"
    fopenThrows := false
    fopenResult := some 7 }

/-- Open-call oracle: the spool directory path exists but is a regular
file, not a directory; the subsequent `fopen` under it fails (ENOTDIR). -/
def envNotADir : OpenEnv :=
  { cleanupEnv := cenvFresh
    tmpdirExists := true
    tmpdirIsDir := false
    uniquePath := "/tmp/plainfile/0126-a6b2-91cc-ff01.eml"
    fopenThrows := false
    fopenResult := none }

/-- Open-call oracle: the spool directory does not exist (so it is not a
directory either); the caller's previous spool file still exists on disk
and is regular, so the pre-cleanup removes it. -/
def envNoDir : OpenEnv :=
  { cleanupEnv := { tempExists := true, tempIsRegular := true, removeThrows := false }
    tmpdirExists := false
    tmpdirIsDir := false
    uniquePath := "/nowhere/0126-a6b2-91cc-ff01.eml"
    fopenThrows := false
    fopenResult := none }

/-- A client that has just had a successful `createContentFile` call:
construction followed by `createContentFile` under `envOpenOk`. -/
def clientAfterOpen : Client :=
  (createContentFile false envOpenOk "/tmp" (freshClient "mail.example.org" "203.0.113.5:25" 1)).1

/-- A client whose spool was opened successfully and that then received a
failed `createContentFile` call on a nonexistent directory (the
pre-cleanup closed the handle; the directory check then failed). -/
def clientAfterOpenThenNoDir : Client :=
  (createContentFile false envNoDir "/nowhere" clientAfterOpen).1

/-- Specification-side descriptor formatting, written from the spec text
("Descriptor formatting" and "Supported families" in spec.md): IPv4
renders as `host:port`, IPv6 as `[host]:port`, any other family or a
resolution failure yields `"unknown"`. Used only to compare against the
source-derived `prepareIPandPort`. -/
def descriptorSpec (env : NameInfoEnv) (a : SockAddr) : String :=
  match a.sa_family with
  | SaFamily.AF_INET =>
      if env.result = 0 then env.clienthost ++ ":" ++ env.clientport else "unknown"
  | SaFamily.AF_INET6 =>
      if env.result = 0 then "[" ++ env.clienthost ++ "]:" ++ env.clientport else "unknown"
  | SaFamily.AF_OTHER _ => "unknown"

/-- Resolver oracle for the IPv4 example of the spec: address
`203.0.113.5`, port `25`. -/
def ipv4Env : NameInfoEnv :=
  { result := 0, clienthost := "203.0.113.5", clientport := "25" }

/-- Resolver oracle for the IPv6 example of the spec: address
`2001:db8::1`, port `587`. -/
def ipv6Env : NameInfoEnv :=
  { result := 0, clienthost := "2001:db8::1", clientport := "587" }

/-- A client holding one annotation whose value pointer is null and one
marked-header pair whose name and value pointers are both null. -/
def nullEntriesClient : Client :=
  { freshClient "mail.example.org" "203.0.113.5:25" 2 with
      sessionData := [("X-Null", none)]
      markedHeaders := [(none, none)] }

/-- Demonstration operation sequence for the exactly-once release
property: two annotation/header insertions, a reset, a further insertion
and a successful spool open, so that some entries are released by `reset`
and the rest by the destructor. -/
def demoOps : List Op :=
  [Op.insertAnn "auth" (some 10),
   Op.insertHdr (some 11) (some 12),
   Op.doReset,
   Op.insertAnn "subject" (some 13),
   Op.openSpool "/tmp" envOpenOk]

/-! Helper lemmas about the event traces of the lifecycle operations. -/

theorem allocsOf_append (l1 l2 : List Event) :
    allocsOf (l1 ++ l2) = allocsOf l1 ++ allocsOf l2 :=
  List.filterMap_append l1 l2 _

theorem allocsOf_freeValue (v : Option Nat) : allocsOf (freeValue v) = v.toList := by
  cases v <;> rfl

theorem allocsOf_flatten (L : List (List Event)) :
    allocsOf L.flatten = (L.map allocsOf).flatten := by
  induction L with
  | nil => rfl
  | cons l L ih => simp [allocsOf_append, ih]

theorem cleanup_fst (k : Bool) (e : CleanupEnv) (c : Client) :
    (cleanup k e c).1 = cleanupState c := rfl

theorem cleanupState_sessionData (c : Client) :
    (cleanupState c).sessionData = c.sessionData := by
  unfold cleanupState; split <;> rfl

theorem cleanupState_markedHeaders (c : Client) :
    (cleanupState c).markedHeaders = c.markedHeaders := by
  unfold cleanupState; split <;> rfl

theorem allocsOf_cleanupCloseEvents (c : Client) :
    allocsOf (cleanupCloseEvents c) = [] := by
  unfold cleanupCloseEvents; split <;> rfl

theorem allocsOf_cleanupRemoveEvents (k : Bool) (e : CleanupEnv) (c : Client) :
    allocsOf (cleanupRemoveEvents k e c) = [] := by
  unfold cleanupRemoveEvents
  split
  · rfl
  · split
    · split <;> rfl
    · rfl

theorem allocsOf_cleanup (k : Bool) (e : CleanupEnv) (c : Client) :
    allocsOf (cleanup k e c).2 = [] := by
  simp [cleanup, allocsOf_append, allocsOf_cleanupCloseEvents, allocsOf_cleanupRemoveEvents]

theorem allocsOf_diag (m : String) : allocsOf [Event.diag m] = [] := rfl

theorem allocsOf_reset (c : Client) : allocsOf (reset c).2 = containerAllocs c := by
  simp [reset, containerAllocs, allocsOf_append, allocsOf_flatten, List.map_map,
        Function.comp_def, allocsOf_freeValue]

theorem containerAllocs_reset (c : Client) : containerAllocs (reset c).1 = [] := rfl

theorem allocsOf_destructor (k : Bool) (e : CleanupEnv) (c : Client) :
    allocsOf (destructor k e c) = containerAllocs c := by
  simp [destructor, allocsOf_append, allocsOf_cleanup, allocsOf_flatten, List.map_map,
        Function.comp_def, allocsOf_freeValue, containerAllocs, cleanup_fst,
        cleanupState_sessionData, cleanupState_markedHeaders]

theorem createContentFile_sessionData (k : Bool) (env : OpenEnv) (d : String) (c : Client) :
    (createContentFile k env d c).1.sessionData = c.sessionData := by
  simp only [createContentFile]
  split
  · exact cleanupState_sessionData c
  · split
    · exact cleanupState_sessionData c
    · exact cleanupState_sessionData c

theorem createContentFile_markedHeaders (k : Bool) (env : OpenEnv) (d : String) (c : Client) :
    (createContentFile k env d c).1.markedHeaders = c.markedHeaders := by
  simp only [createContentFile]
  split
  · exact cleanupState_markedHeaders c
  · split
    · exact cleanupState_markedHeaders c
    · exact cleanupState_markedHeaders c

theorem containerAllocs_createContentFile (k : Bool) (env : OpenEnv) (d : String) (c : Client) :
    containerAllocs (createContentFile k env d c).1 = containerAllocs c := by
  simp [containerAllocs, createContentFile_sessionData, createContentFile_markedHeaders]

theorem allocsOf_createContentFile (k : Bool) (env : OpenEnv) (d : String) (c : Client) :
    allocsOf (createContentFile k env d c).2.1 = [] := by
  simp only [createContentFile]
  split
  · simp [allocsOf_append, allocsOf_cleanup, allocsOf_diag]
  · split
    · simp [allocsOf_append, allocsOf_cleanup, allocsOf_diag]
    · simp [allocsOf_cleanup]

theorem count_containerAllocs_insertAnn (c : Client) (k : String) (v : Option Nat) (a : Nat) :
    (containerAllocs { c with sessionData := c.sessionData ++ [(k, v)] }).count a
      = (containerAllocs c).count a + v.toList.count a := by
  simp [containerAllocs, List.count_append]
  omega

theorem count_containerAllocs_insertHdr (c : Client) (n v : Option Nat) (a : Nat) :
    (containerAllocs { c with markedHeaders := c.markedHeaders ++ [(n, v)] }).count a
      = (containerAllocs c).count a + n.toList.count a + v.toList.count a := by
  simp [containerAllocs, List.count_append]
  omega

theorem runOps_count (keep : Bool) (ops : List Op) (a : Nat) :
    ∀ c : Client,
      (allocsOf (runOps keep c ops).2).count a
        + (containerAllocs (runOps keep c ops).1).count a
      = (containerAllocs c).count a + (placedAllocs ops).count a := by
  induction ops with
  | nil => intro c; simp [runOps, placedAllocs, allocsOf]
  | cons op ops ih =>
    intro c
    cases op with
    | insertAnn k v =>
      have h := ih { c with sessionData := c.sessionData ++ [(k, v)] }
      have hc := count_containerAllocs_insertAnn c k v a
      simp only [runOps, stepOp, placedAllocs, allocsOf_append, List.count_append,
                 List.nil_append] at *
      omega
    | insertHdr n v =>
      have h := ih { c with markedHeaders := c.markedHeaders ++ [(n, v)] }
      have hc := count_containerAllocs_insertHdr c n v a
      simp only [runOps, stepOp, placedAllocs, allocsOf_append, List.count_append,
                 List.nil_append] at *
      omega
    | doReset =>
      have h := ih (reset c).1
      simp only [runOps, stepOp, placedAllocs, allocsOf_append, List.count_append,
                 allocsOf_reset, containerAllocs_reset, List.count_nil] at *
      omega
    | openSpool d env =>
      have h := ih (createContentFile keep env d c).1
      simp only [runOps, stepOp, placedAllocs, allocsOf_append, List.count_append,
                 allocsOf_createContentFile, containerAllocs_createContentFile,
                 List.count_nil] at *
      omega

/-! Claim theorems. -/

/-- C1 (code bug): the claimed invariant — `fcontent` is non-null iff
`fcontentStatus` is true and no cleanup/reset intervened since the last
successful open — fails on the code. After a `createContentFile` call in
which `fopen` returns `NULL` (no exception is thrown, so the `catch` does
not run), the object holds `fcontent = nullptr` together with
`fcontentStatus = true`: `fcontentStatus` is assigned `true` before the
`fopen` result is ever examined. A `reset` after a successful open gives
the opposite disagreement: `fcontent` stays non-null while
`fcontentStatus` becomes false, since `reset` never touches `fcontent`. -/
theorem claim1_handle_flag_disagree :
    ((createContentFile false envOpenFail "/tmp"
        (freshClient "mail.example.org" "203.0.113.5:25" 1)).1.fcontent = none
      ∧ (createContentFile false envOpenFail "/tmp"
          (freshClient "mail.example.org" "203.0.113.5:25" 1)).1.fcontentStatus = true)
    ∧ ((reset clientAfterOpen).1.fcontent = some 7
      ∧ (reset clientAfterOpen).1.fcontentStatus = false) := by
  decide

/-- C2 (code bug): when the underlying `fopen` fails (returns `NULL`),
`createContentFile` does return failure, but it leaves
`fcontentStatus = true` (the claim requires `false`) and emits no
diagnostic at all (the claim requires the condition to be reported): the
`catch` block that would report and null the handle is keyed to an
exception that `fopen` never throws. -/
theorem claim2_open_failure_flag_and_silence :
    (createContentFile false envOpenFail "/tmp"
        (freshClient "mail.example.org" "203.0.113.5:25" 1)).2.2 = false
    ∧ (createContentFile false envOpenFail "/tmp"
        (freshClient "mail.example.org" "203.0.113.5:25" 1)).1.fcontentStatus = true
    ∧ (createContentFile false envOpenFail "/tmp"
        (freshClient "mail.example.org" "203.0.113.5:25" 1)).2.1 = [] := by
  decide

/-- C3 counterexample: calling `createContentFile` on a path that exists
but is NOT a directory (`envNotADir`) refutes the claim as stated: the
call does return failure, but it reports no diagnostic (the directory
check `!fs::exists(tmpdir) && !fs::is_directory(tmpdir)` passes because
the path exists) and it mutates spool state — the spool path `temp`
changes from `""` to the generated spool filename and `fcontentStatus`
becomes `true`. -/
theorem claim3_counterexample :
    (createContentFile false envNotADir "/tmp/plainfile"
        (freshClient "mail.example.org" "203.0.113.5:25" 1)).2.2 = false
    ∧ (createContentFile false envNotADir "/tmp/plainfile"
        (freshClient "mail.example.org" "203.0.113.5:25" 1)).2.1 = []
    ∧ (freshClient "mail.example.org" "203.0.113.5:25" 1).temp = ""
    ∧ (createContentFile false envNotADir "/tmp/plainfile"
        (freshClient "mail.example.org" "203.0.113.5:25" 1)).1.temp
        = "/tmp/plainfile/0126-a6b2-91cc-ff01.eml"
    ∧ (createContentFile false envNotADir "/tmp/plainfile"
        (freshClient "mail.example.org" "203.0.113.5:25" 1)).1.fcontentStatus = true := by
  decide

/-- C3 (amended): only a `spoolDirectory` that does not exist (and hence
is also not a directory) makes the check fire; in that case
`createContentFile` reports the directory diagnostic and returns failure,
and the resulting state is exactly the state left by the internal
pre-cleanup — which may itself have closed and removed a prior spool — with
no further mutation. A `spoolDirectory` that exists but is not a directory
passes the check, and the call proceeds to set the spool path and attempt
the open. -/
theorem claim3_amended :
    (∀ (keep : Bool) (env : OpenEnv) (tmpdir : String) (c : Client),
      env.tmpdirExists = false → env.tmpdirIsDir = false →
        (createContentFile keep env tmpdir c).2.2 = false
        ∧ Event.diag "Error: Can not access temporary directory"
            ∈ (createContentFile keep env tmpdir c).2.1
        ∧ (createContentFile keep env tmpdir c).1 = (cleanup keep env.cleanupEnv c).1)
    ∧ (∀ (keep : Bool) (env : OpenEnv) (tmpdir : String) (c : Client),
      env.tmpdirExists = true →
        (createContentFile keep env tmpdir c).1.temp = env.uniquePath) := by
  constructor
  · intro keep env tmpdir c hex hdir
    simp [createContentFile, hex, hdir]
  · intro keep env tmpdir c hex
    simp only [createContentFile, hex]
    split
    · simp at *
    · split <;> rfl

/-- Witness for the amended C3, at `envNoDir` (nonexistent directory,
applied to a client with an open spool) and `envNotADir` (existing
non-directory). -/
theorem claim3_amended_witness :
    ((createContentFile false envNoDir "/nowhere" clientAfterOpen).2.2 = false
      ∧ Event.diag "Error: Can not access temporary directory"
          ∈ (createContentFile false envNoDir "/nowhere" clientAfterOpen).2.1
      ∧ (createContentFile false envNoDir "/nowhere" clientAfterOpen).1
          = (cleanup false envNoDir.cleanupEnv clientAfterOpen).1)
    ∧ (createContentFile false envNotADir "/tmp/plainfile"
        (freshClient "mail.example.org" "203.0.113.5:25" 3)).1.temp
        = envNotADir.uniquePath :=
  ⟨claim3_amended.1 false envNoDir "/nowhere" clientAfterOpen rfl rfl,
   claim3_amended.2 false envNotADir "/tmp/plainfile"
     (freshClient "mail.example.org" "203.0.113.5:25" 3) rfl⟩

/-- C4 counterexample: after a successful spool open, `reset` does NOT
release the spool handle: the handle opened as `some 7` is still held
after `reset` while a freshly constructed object holds none, so the reset
object is distinguishable from a fresh one beyond `identity` and
`networkDescriptor` (which are equal here by construction). -/
theorem claim4_counterexample :
    (reset clientAfterOpen).1.fcontent = some 7
    ∧ (reset clientAfterOpen).1.fcontentStatus = false
    ∧ (freshClient "mail.example.org" "203.0.113.5:25" 1).fcontent = none
    ∧ (reset clientAfterOpen).1 ≠ freshClient "mail.example.org" "203.0.113.5:25" 1 := by
  decide

/-- C4 (amended): after `reset()` the object equals a freshly constructed
object with the same `hostname`, `networkDescriptor` and `identity` —
empty `annotations` and `headerRewrites`, `mailFlags = none`,
`hasOptionalPreamble = true`, `hasGenericError = false`,
`spoolOpened = false` — except that the spool handle (`fcontent`) and the
spool path (`temp`) are NOT released by `reset`: they keep their prior
values until the next `openSpool` pre-cleanup or destruction. -/
theorem claim4_amended (c : Client) :
    (reset c).1
      = { freshClient c.hostname c.ipAndPort c.id with
            fcontent := c.fcontent, temp := c.temp } := rfl

/-- C5 (code bug): the id-initializer increments `uniqueId` under the
lock but reads it back AFTER `unlock()` (`return uniqueId;` sits outside
the critical section). Under the interleaving increment(1), increment(2),
read(1), read(2) both completed constructors obtain identity `2` — a
collision — whereas a serialized schedule yields the distinct identities
`1` and `2`. -/
theorem claim5_duplicate_identity :
    ((raceRun [true, false, true, false]).pc1 = 2
      ∧ (raceRun [true, false, true, false]).pc2 = 2
      ∧ (raceRun [true, false, true, false]).id1 = 2
      ∧ (raceRun [true, false, true, false]).id2 = 2)
    ∧ ((raceRun [true, true, false, false]).id1 = 1
      ∧ (raceRun [true, true, false, false]).id2 = 2) := by
  decide

/-- C6 (code bug): `cleanup` decides to close with
`getFcontentStatus() || fcontent != nullptr`, so in the reachable state
left by a failed `fopen` (`fcontentStatus = true`, `fcontent = nullptr`)
it calls `fclose(NULL)` — undefined behaviour — contradicting the claim
that it never attempts to close an absent handle. Moreover a second
`cleanup` right after a first one re-enters the close branch (the flag is
never cleared by `cleanup`), again closing a null handle. -/
theorem claim6_cleanup_closes_null :
    (cleanup false cenvFresh
        (createContentFile false envOpenFail "/tmp"
          (freshClient "mail.example.org" "203.0.113.5:25" 1)).1).2
      = [Event.fcloseCall none]
    ∧ Event.fcloseCall none
        ∈ (cleanup false cenvFresh (cleanup false cenvFresh clientAfterOpen).1).2 := by
  decide

/-- C7 (confirmed): over any lifetime of a session object — any sequence
of entry insertions, resets and spool opens starting from a freshly
constructed object, followed by destruction — every heap allocation placed
into `sessionData` or `markedHeaders` is freed exactly once (assuming the
placed allocations are pairwise distinct, as distinct heap allocations
are): `reset` frees the entries present and clears the containers, so a
later reset or the destructor cannot free them again, and entries never
touched by a reset are freed by the destructor. -/
theorem claim7_release_exactly_once (keep : Bool) (denv : CleanupEnv)
    (hostname ipAndPort : String) (id : Nat) (ops : List Op) (a : Nat)
    (hnodup : (placedAllocs ops).Nodup) (ha : a ∈ placedAllocs ops) :
    (lifetimeFrees keep denv (freshClient hostname ipAndPort id) ops).count a = 1 := by
  have h := runOps_count keep ops a (freshClient hostname ipAndPort id)
  have hfresh : containerAllocs (freshClient hostname ipAndPort id) = [] := rfl
  rw [hfresh, List.count_nil, Nat.zero_add] at h
  unfold lifetimeFrees
  rw [List.count_append, allocsOf_destructor, h]
  exact List.count_eq_one_of_mem hnodup ha

/-- Witness for C7 at the concrete lifetime `demoOps`: allocation `12`
(a header value placed before the reset) is freed exactly once. -/
theorem claim7_release_exactly_once_witness :
    (lifetimeFrees false cenvFresh (freshClient "mail.example.org" "203.0.113.5:25" 1)
        demoOps).count 12 = 1 :=
  claim7_release_exactly_once false cenvFresh "mail.example.org" "203.0.113.5:25" 1
    demoOps 12 (by decide) (by decide)

/-- C8 (confirmed): descriptor derivation matches the specification
exactly — IPv4 formats as `host:port` (address `203.0.113.5` port `25`
gives `"203.0.113.5:25"`), IPv6 as `[host]:port` (address `2001:db8::1`
port `587` gives `"[2001:db8::1]:587"`), any other family and any numeric
resolution failure give `"unknown"` — and construction still proceeds,
storing `"unknown"` as the descriptor. -/
theorem claim8_descriptor_format :
    (∀ (env : NameInfoEnv) (a : SockAddr),
        (prepareIPandPort env a).1 = descriptorSpec env a)
    ∧ (prepareIPandPort ipv4Env ⟨SaFamily.AF_INET⟩).1 = "203.0.113.5:25"
    ∧ (prepareIPandPort ipv6Env ⟨SaFamily.AF_INET6⟩).1 = "[2001:db8::1]:587"
    ∧ (∀ (env : NameInfoEnv) (n : Nat),
        (prepareIPandPort env ⟨SaFamily.AF_OTHER n⟩).1 = "unknown")
    ∧ (∀ (hostname : String) (env : NameInfoEnv) (n : Nat) (id : Nat),
        ((Client.construct hostname ⟨SaFamily.AF_OTHER n⟩ env id).1).ipAndPort
          = "unknown") := by
  refine ⟨?_, by decide, by decide, fun env n => rfl, fun hostname env n id => rfl⟩
  intro env a
  obtain ⟨fam⟩ := a
  cases fam with
  | AF_INET => by_cases h : env.result = 0 <;> simp [prepareIPandPort, descriptorSpec, h]
  | AF_INET6 => by_cases h : env.result = 0 <;> simp [prepareIPandPort, descriptorSpec, h]
  | AF_OTHER n => rfl

/-- C9 (confirmed): `prepareIPandPort` asserts its argument is non-null:
with a null address the assertion fails (modelled as the `none` outcome)
and in particular no descriptor — not even `"unknown"` — is produced;
for every non-null address the derivation completes and returns the
string computed by `prepareIPandPort`. -/
theorem claim9_null_address_asserts :
    (∀ env : NameInfoEnv, prepareIPandPortChecked env none = none)
    ∧ (∀ (env : NameInfoEnv) (a : SockAddr),
        prepareIPandPortChecked env (some a) = some (prepareIPandPort env a))
    ∧ (∀ (env : NameInfoEnv) (r : String × List Event),
        prepareIPandPortChecked env none ≠ some r) :=
  ⟨fun _ => rfl, fun _ _ => rfl, fun _ _ h => Option.noConfusion h⟩

/-- C10 (confirmed): every `free` in `reset` and in the destructor is
guarded by a null check: the allocations released are exactly the
non-null values held in the containers (`containerAllocs` collects only
non-null pointers), so null-valued annotation entries and null header
name/value pointers are skipped; both operations complete, and `reset`
clears both containers. In particular, on a client holding only
null-pointer entries, `reset` emits no events at all and the destructor
frees nothing. -/
theorem claim10_null_pointers_skipped :
    (∀ c : Client,
        allocsOf (reset c).2 = containerAllocs c
        ∧ (reset c).1.sessionData = [] ∧ (reset c).1.markedHeaders = [])
    ∧ (∀ (keep : Bool) (env : CleanupEnv) (c : Client),
        allocsOf (destructor keep env c) = containerAllocs c)
    ∧ (reset nullEntriesClient).2 = []
    ∧ (reset nullEntriesClient).1.sessionData = []
    ∧ (reset nullEntriesClient).1.markedHeaders = []
    ∧ destructor false cenvFresh nullEntriesClient = [] :=
  ⟨fun c => ⟨allocsOf_reset c, rfl, rfl⟩,
   fun keep env c => allocsOf_destructor keep env c,
   by decide, rfl, rfl, by decide⟩

end Mlt
